import Mathlib

/-!
Verification model of the omnipy PDM command core (`src/podcomm/pdm.py`).

The Python source is shallowly embedded:
* machine bytes are `Nat` values below 256, byte strings are `List Nat`;
* Python `Decimal` arithmetic (exact base-10 on the values in play) is `Rat`;
* Python `int(...)` on a nonnegative value is truncation toward zero;
* fallible code returns `Except PdmExc`;
* the radio, the pod-state store, the nonce generator and the clock are
  external collaborators of `pdm.py`: radio exchanges are driven by an
  explicit script (`Xchg`), pod-shadow handler invocations and sleeps are
  recorded as trace events (`Ev`), and recursion in the transport loop is
  bounded by explicit fuel (the Python recursion is bounded by the same
  number of radio exchanges the script provides).

Helper functions of the repository that live outside `src/` (the
`pdmutils`, `nonce`, `radio`, `definitions` modules) are modelled from the
spec and are marked as such in their doc comments.
-/

/-- Big-endian 16-bit byte encoding, as `struct.pack(">H", n)` for in-range `n`
(out-of-range values are truncated here where Python would raise). -/
def u16be (n : Nat) : List Nat := [n / 256 % 256, n % 256]

/-- Big-endian 32-bit byte encoding, as `struct.pack(">I", n)` for in-range `n`. -/
def u32be (n : Nat) : List Nat :=
  [n / 16777216 % 256, n / 65536 % 256, n / 256 % 256, n % 256]

/-- The big-endian 16-bit value stored at byte offsets `i` and `i+1` of a body. -/
def u16beAt (body : List Nat) (i : Nat) : Nat :=
  body.getD i 0 * 256 + body.getD (i + 1) 0

/-- Modelled from the spec: `pdmutils.getChecksum` is not under `src/`; the spec
defines the checksum as the 16-bit unsigned sum of all input bytes. -/
def getChecksum (bs : List Nat) : Nat := bs.sum % 65536

/-- Python `int()` applied to an exact rational: truncation toward zero. -/
def ratTrunc (q : ℚ) : ℤ := if 0 ≤ q then q.floor else q.ceil

/-- Stated from the spec's words (property 8.1) for comparison with the code:
round-half-even (banker's rounding) of a rational to an integer. -/
def round_half_even (q : ℚ) : ℤ :=
  let f := q.floor
  let r := q - (f : ℚ)
  if r < 1 / 2 then f
  else if 1 / 2 < r then f + 1
  else if f % 2 = 0 then f else f + 1

/-- Run-length compression of a list into (count, value) groups of consecutive
equal values. -/
def rleCounts {α : Type} [DecidableEq α] : List α → List (Nat × α)
  | [] => []
  | x :: xs =>
    match rleCounts xs with
    | [] => [(1, x)]
    | (n, y) :: rest => if y = x then (n + 1, x) :: rest else (1, x) :: (n, y) :: rest

/-- Modelled from the spec: `pdmutils.getPulsesForHalfHours` is not under `src/`;
the spec says it yields the integer pulses per half-hour slot, one pulse being
0.05 U, so a slot of `u` units holds `int(u * 20)` pulses. -/
def getPulsesForHalfHours (halfHourUnits : List ℚ) : List ℤ :=
  halfHourUnits.map fun u => ratTrunc (u * 20)

/-- Modelled from the spec: `pdmutils.getInsulinScheduleTableFromPulses` is not
under `src/`; the spec says it run-length-compresses the pulse list into the
ISE table. The 16-bit entry format (repeat count with the pulse value) is
internal to the missing module; the structural claims proved below do not
depend on it. -/
def getInsulinScheduleTableFromPulses (pulses : List ℤ) : List Nat :=
  (rleCounts pulses).map fun e => (e.1 - 1) % 16 * 4096 + e.2.toNat % 4096

/-- Modelled from the spec: `pdmutils.getStringBodyFromTable` is not under
`src/`; each 16-bit table entry is packed big-endian. -/
def getStringBodyFromTable (table : List Nat) : List Nat :=
  table.flatMap u16be

/-- The packed per-half-hour pulse list (`getStringBodyFromTable` applied to the
pulse list, as the source does). -/
def pulseWords (pulses : List ℤ) : List Nat :=
  getStringBodyFromTable (pulses.map Int.toNat)

/-- Modelled from the spec: `pdmutils.getPulseIntervalEntries` is not under
`src/`; the spec says it is the run-length compression of the half-hour pulse
stream into (pulse count, interval in microseconds) entries. The exact count
and interval scaling is internal to the missing module; the structural claims
proved below do not depend on it. -/
def getPulseIntervalEntries (halfHourUnits : List ℚ) : List (Nat × Nat) :=
  (rleCounts (getPulsesForHalfHours halfHourUnits)).map fun e =>
    (e.1 * e.2.toNat * 10, if e.2.toNat = 0 then 1800000000 else 180000000 / e.2.toNat)

/-- Pod progress values. Modelled from the spec: the `PodProgress` enum lives in
the missing `definitions` module; the spec fixes the order
`Initial < TankPowerActivated < TankFillCompleted < PairingSuccess < Priming <
RunningNormal < Running < RunningLow < ErrorShuttingDown <
AlertExpiredShuttingDown < Inactive < Fault`. Only the order matters. -/
def PodProgress.Initial : Nat := 0

def PodProgress.TankPowerActivated : Nat := 1

def PodProgress.TankFillCompleted : Nat := 2

def PodProgress.PairingSuccess : Nat := 3

def PodProgress.Priming : Nat := 4

def PodProgress.RunningNormal : Nat := 5

def PodProgress.Running : Nat := 6

def PodProgress.RunningLow : Nat := 7

def PodProgress.ErrorShuttingDown : Nat := 8

def PodProgress.AlertExpiredShuttingDown : Nat := 9

def PodProgress.Inactive : Nat := 10

def PodProgress.Fault : Nat := 11

/-- Exceptions of the PDM core. `pdmError`, `outOfSync` (for
`TransmissionOutOfSyncError`) and `busy` (for `PdmBusyError`) are the
`OmnipyError` subclasses; `pyError` stands for any other Python runtime error
(IndexError, struct.error, ZeroDivisionError); `stuck` is a model artefact
reported when the radio script or the recursion fuel runs out. -/
inductive PdmExc where
  | pdmError (msg : String)
  | outOfSync
  | busy
  | pyError (kind : String)
  | stuck
  deriving DecidableEq, Repr

/-- The pod shadow: the attributes of the external `Pod` object that
`src/podcomm/pdm.py` reads or writes in the modelled paths. -/
structure Pod where
  radio_address : Option Nat
  id_lot : Option Nat
  id_t : Option Nat
  state_progress : Nat
  state_faulted : Bool
  var_maximum_bolus : Option ℚ
  var_maximum_temp_basal_rate : Option ℚ
  insulin_reservoir : ℚ
  var_utc_offset : Option ℤ
  radio_message_sequence : Nat
  radio_packet_sequence : Nat
  nonce_last : Nat
  nonce_seed : Nat
  deriving DecidableEq, Repr

/-- `Pdm._assert_pod_address_assigned` (src 724-729); the `self.pod is None`
branch cannot arise here since a `Pod` value is always given. -/
def assert_pod_address_assigned (pod : Pod) : Except PdmExc Unit :=
  if pod.radio_address = none then .error (.pdmError "Radio radio_address not set")
  else .ok ()

/-- `Pdm._assert_can_generate_nonce` (src 776-781). -/
def assert_can_generate_nonce (pod : Pod) : Except PdmExc Unit :=
  if pod.id_lot = none then .error (.pdmError "Lot number is not defined")
  else if pod.id_t = none then .error (.pdmError "Pod serial number is not defined")
  else .ok ()

/-- `Pdm._assert_can_deactivate` (src 754-760). -/
def assert_can_deactivate (pod : Pod) : Except PdmExc Unit :=
  match assert_pod_address_assigned pod with
  | .error e => .error e
  | .ok _ =>
    match assert_can_generate_nonce pod with
    | .error e => .error e
    | .ok _ =>
      if pod.state_progress < PodProgress.PairingSuccess then
        .error (.pdmError "Pod is not paired")
      else if PodProgress.AlertExpiredShuttingDown < pod.state_progress then
        .error (.pdmError "Pod already deactivated")
      else .ok ()

/-- `Pdm._assert_basal_schedule_is_valid` (src 698-715), entry checks in source
order; `utcOffset` is `self.pod.var_utc_offset`. -/
def checkScheduleEntries : List ℚ → Except PdmExc Unit
  | [] => .ok ()
  | e :: rest =>
    if e < 1 / 20 then
      .error (.pdmError "A basal rate schedule entry cannot be less than 0.05U/h")
    else if 30 < e then
      .error (.pdmError "A basal rate schedule entry cannot be more than 30U/h")
    else checkScheduleEntries rest

/-- `Pdm._assert_basal_schedule_is_valid` (src 698-715). -/
def assert_basal_schedule_is_valid (schedule : Option (List ℚ)) (utcOffset : Option ℤ) :
    Except PdmExc Unit :=
  match schedule with
  | none => .error (.pdmError "No basal schedule defined")
  | some s =>
    if s.length ≠ 48 then .error (.pdmError "A full schedule of 48 half hours is needed")
    else
      match checkScheduleEntries s with
      | .error e => .error e
      | .ok _ =>
        if utcOffset = none then .error (.pdmError "Pod utc offset not set")
        else .ok ()

/-- A nullable user-configured ceiling test: `lim is not None and lim < v`
(the shape of the checks at src 77 and src 182-183). -/
def exceedsCeiling (lim : Option Rat) (v : Rat) : Bool :=
  match lim with
  | some m => decide (m < v)
  | none => false

/-- `Pdm._immediate_bolus` outer 0x1A command body (src 383-399):
`u32(0) + 0x02 + u16(checksum) + bodyForChecksum` with
`bodyForChecksum = 0x01 + u16(pulse_speed * pulse_count) + u16(pulse_count) +
u16(pulse_count)` and the checksum taken over `bodyForChecksum`. -/
def immediateBolusMainBody (pulse_count : Nat) (pulse_speed : Nat) : List Nat :=
  let bodyForChecksum :=
    [0x01] ++ u16be (pulse_speed * pulse_count) ++ u16be pulse_count ++ u16be pulse_count
  u32be 0 ++ [0x02] ++ u16be (getChecksum bodyForChecksum) ++ bodyForChecksum

/-- `Pdm._immediate_bolus` inner 0x17 command body (src 401-404):
`u8(reminders) + u16(pulse_count*10) + u32(delivery_delay*100000) + 6 zero bytes`. -/
def immediateBolusSubBody (pulse_count reminders delivery_delay : Nat) : List Nat :=
  [reminders] ++ u16be (pulse_count * 10) ++ u32be (delivery_delay * 100000) ++
    [0, 0, 0, 0, 0, 0]

/-- `Pdm.bolus` (src 68-101) up to the `_immediate_bolus` radio send: the guard
chain in source order, producing the pulse count handed to `_immediate_bolus`.
`busy` is the oracle for `_is_bolus_running` (the source consults it twice, in
`_assert_immediate_bolus_not_active` and again at src 89; both calls are
modelled by the same oracle value). The local `pulseCount = int(amount * 20)`
of src 80 is written inline as `ratTrunc (amount * 20)`. -/
def bolusPipeline (pod : Pod) (busy : Bool) (amount : ℚ) : Except PdmExc ℤ :=
  if pod.radio_address = none then .error (.pdmError "Radio radio_address not set")
  else if pod.id_lot = none then .error (.pdmError "Lot number is not defined")
  else if pod.id_t = none then .error (.pdmError "Pod serial number is not defined")
  else if busy then .error (.pdmError "Pod is busy delivering a bolus")
  else if pod.state_faulted then .error (.pdmError "Pod is state_faulted")
  else if pod.state_progress < PodProgress.Running then .error (.pdmError "Pod is not yet running")
  else if PodProgress.RunningLow < pod.state_progress then .error (.pdmError "Pod has stopped")
  else if exceedsCeiling pod.var_maximum_bolus amount then
    .error (.pdmError "Bolus exceeds defined maximum bolus of %.2fU")
  else if ratTrunc (amount * 20) = 0 then .error (.pdmError "Cannot do a zero bolus")
  else if 0x3840 < ratTrunc (amount * 20) * 16 then
    .error (.pdmError "Bolus would exceed the maximum time allowed for an immediate bolus")
  else if busy then .error (.pdmError "A previous bolus is already running")
  else if pod.insulin_reservoir < amount then
    .error (.pdmError "Cannot bolus %.2f units, insulin_reservoir capacity is at: %.2f")
  else .ok (ratTrunc (amount * 20))

/-- Output of the `setTempBasal` guard-and-encode pipeline: whether
`cancelTempBasal` was invoked first, the half-hour count, and the two command
bodies handed to the radio message. -/
structure TempBasalOut where
  cancelCalled : Bool
  halfHours : Nat
  outerBody : List Nat
  innerBody : List Nat
  deriving DecidableEq, Repr

/-- The guard chain of `Pdm.setTempBasal` (src 171-186) in source order:
the five shared asserts, the duration bound on `int(hours * 2)`, the
user-configured temp-basal ceiling, and the 30 U/h capability bound. -/
def setTempBasalGuards (pod : Pod) (busy : Bool) (basalRate hours : ℚ) :
    Except PdmExc Unit :=
  if pod.radio_address = none then .error (.pdmError "Radio radio_address not set")
  else if pod.id_lot = none then .error (.pdmError "Lot number is not defined")
  else if pod.id_t = none then .error (.pdmError "Pod serial number is not defined")
  else if busy then .error (.pdmError "Pod is busy delivering a bolus")
  else if pod.state_faulted then .error (.pdmError "Pod is state_faulted")
  else if pod.state_progress < PodProgress.Running then .error (.pdmError "Pod is not yet running")
  else if PodProgress.RunningLow < pod.state_progress then .error (.pdmError "Pod has stopped")
  else if 24 < ratTrunc (hours * 2) ∨ ratTrunc (hours * 2) < 1 then
    .error (.pdmError "Requested duration is not valid")
  else if exceedsCeiling pod.var_maximum_temp_basal_rate basalRate then
    .error (.pdmError "Requested rate exceeds maximum temp basal setting")
  else if 30 < basalRate then
    .error (.pdmError "Requested rate exceeds maximum temp basal capability")
  else .ok ()

/-- The 0x1A and 0x16 bodies of `Pdm.setTempBasal` exactly as built at src
191-229: `halfHourUnits = [rate/2] * halfHours`, the outer checksum taken
over the 5 header bytes plus the packed pulse list (not the emitted ISE
table), and the inner body emitting the first pulse-interval entry once on
its own and again as the head of the full list. -/
def tempBasalBodies (halfHours : Nat) (basalRate : ℚ) (confidenceReminder : Bool) :
    List Nat × List Nat :=
  let halfHourUnits := List.replicate halfHours (basalRate / 2)
  let pulseList := getPulsesForHalfHours halfHourUnits
  let iseBody := getStringBodyFromTable (getInsulinScheduleTableFromPulses pulseList)
  let pulseBody := pulseWords pulseList
  let bodyForChecksum :=
    [halfHours] ++ u16be 0x3840 ++ u16be (pulseList.headD 0).toNat
  let outer :=
    u32be 0 ++ [0x01] ++ u16be (getChecksum (bodyForChecksum ++ pulseBody)) ++
      bodyForChecksum ++ iseBody
  let reminders := if confidenceReminder then 0x40 else 0
  let pulseEntries := getPulseIntervalEntries halfHourUnits
  let fst := pulseEntries.headD (0, 0)
  let inner :=
    [reminders, 0x00] ++ u16be fst.1 ++ u32be fst.2 ++
      pulseEntries.flatMap fun e => u16be e.1 ++ u32be e.2
  (outer, inner)

/-- `Pdm.setTempBasal` (src 168-239) up to the radio send: the guard chain,
then the command bodies. `busy` is the `_is_bolus_running` oracle,
`tempActive` the `_is_temp_basal_active` oracle; the nested
`cancelTempBasal` call (src 189) is recorded in `cancelCalled` (its own
radio exchange is outside this pipeline). -/
def setTempBasalPipeline (pod : Pod) (busy tempActive : Bool) (basalRate hours : ℚ)
    (confidenceReminder : Bool) : Except PdmExc TempBasalOut :=
  match setTempBasalGuards pod busy basalRate hours with
  | .error e => .error e
  | .ok _ =>
    let halfHours := (ratTrunc (hours * 2)).toNat
    let bodies := tempBasalBodies halfHours basalRate confidenceReminder
    .ok ⟨tempActive, halfHours, bodies.1, bodies.2⟩

/-- The wall-clock bookkeeping of `Pdm._set_basal_schedule` (src 585-597):
given the pod-local hour, minute and second, the current half-hour index and
the seconds remaining until the next half-hour boundary. -/
def basalTimeParams (hour minute second : Nat) : Nat × Nat :=
  if minute < 30 then (hour * 2, (30 - minute - 1) * 60 + (60 - second))
  else (hour * 2 + 1, (60 - minute - 1) * 60 + (60 - second))

/-- `pulsesRemainingCurrentHour` of `Pdm._set_basal_schedule` (src 607):
`int(secondsUntilHalfHour * pulse_list[currentHalfHour] / 1800)` on the halved
schedule. -/
def basalPulsesRemaining (schedule : List ℚ) (hour minute second : Nat) : ℤ :=
  let halved := schedule.map fun e => e / 2
  let tp := basalTimeParams hour minute second
  let pulseList := getPulsesForHalfHours halved
  ratTrunc ((tp.2 : ℚ) * ((pulseList.getD tp.1 0 : ℤ) : ℚ) / 1800)

/-- `Pdm._set_basal_schedule` (src 574-637) as a pure function of the schedule
and the pod-local wall-clock time: the outer 0x1A and inner 0x13 bodies. The
source divides by `pulsesRemainingCurrentHour` at src 631; when that value is
zero Python raises `ZeroDivisionError`, modelled as `pyError`. -/
def setBasalScheduleBodies (schedule : List ℚ) (hour minute second : Nat) :
    Except PdmExc (List Nat × List Nat) :=
  let halved := schedule.map fun e => e / 2
  let tp := basalTimeParams hour minute second
  let pulseList := getPulsesForHalfHours halved
  let iseBody := getStringBodyFromTable (getInsulinScheduleTableFromPulses pulseList)
  let pulseBody := pulseWords pulseList
  let pr := basalPulsesRemaining schedule hour minute second
  let bodyForChecksum := [tp.1] ++ u16be (tp.2 * 8) ++ u16be pr.toNat
  let outer :=
    u32be 0 ++ [0x00] ++ u16be (getChecksum (bodyForChecksum ++ pulseBody)) ++
      bodyForChecksum ++ iseBody
  if pr = 0 then .error (.pyError "ZeroDivisionError")
  else
    let pulseEntries := getPulseIntervalEntries halved
    let inner :=
      [0x00, 0x00] ++ u16be (pr.toNat * 10) ++
        u32be (ratTrunc ((tp.2 : ℚ) * 1000 * 1000 / (pr : ℚ))).toNat ++
        pulseEntries.flatMap fun e => u16be e.1 ++ u32be e.2
    .ok (outer, inner)

/-- A PDM radio message: `Message(MessageType.PDM, address, sequence)` plus its
commands; `setNonce` fills the `nonce` field. -/
structure Msg where
  address : Option Nat
  sequence : Nat
  commands : List (Nat × List Nat)
  nonce : Option Nat
  deriving DecidableEq, Repr

/-- `Pdm._createMessage` (src 438-441). -/
def createMessage (addr : Option Nat) (seq ctype : Nat) (body : List Nat) : Msg :=
  ⟨addr, seq, [(ctype, body)], none⟩

/-- One scripted outcome of `Radio.send_request_get_response`: either the
radio raises `TransmissionOutOfSyncError`, or it returns a response whose
contents are the listed (ctype, body) pairs. -/
inductive Xchg where
  | outOfSync
  | reply (contents : List (Nat × List Nat))
  deriving DecidableEq, Repr

/-- Observable events of a transport run: sleeps, exchange attempts (with the
flags passed to the radio), nonce-generator sync calls, message-sequence
resets, and pod-shadow handler invocations. -/
inductive Ev where
  | sleep (secs : Nat)
  | radioExchange (address : Option Nat) (sequence : Nat)
      (commands : List (Nat × List Nat)) (nonce : Option Nat)
      (stayConnected lowTx highTx : Bool)
  | nonceSync (syncWord seq : Nat)
  | setMessageSequence (v : Nat)
  | podVersion (body : List Nat)
  | podStatus (body : List Nat)
  | podInfo (body : List Nat)
  deriving DecidableEq, Repr

/-- Mutable state of `Pdm` outside the pod shadow: the nonce generator and the
radio counters. The generator itself is external (`nonce.py` is not under
`src/`); it is modelled as a stream of values indexed by how many `getNext`
calls happened, a `lastNonce`/`seed` pair (persisted by `_savePod`), and a log
of `sync` calls. -/
structure TSt where
  nonceStream : Nat → Nat
  nonceIdx : Nat
  nonceLast : Nat
  nonceSeed : Nat
  syncLog : List (Nat × Nat)
  msgSeq : Nat
  packetSeq : Nat

/-- Modelled from the spec: the `FAKE_NONCE` sentinel of the missing nonce
module; only its equality test matters here. -/
def FAKE_NONCE : Nat := 4294967295

/-- `Nonce.getNext` as seen from `pdm.py`: the drawn value and the updated
generator state (`lastNonce` tracks the persisted `nonce_last`). -/
def nonceAdvance (st : TSt) : Nat × TSt :=
  (st.nonceStream st.nonceIdx,
   { st with nonceIdx := st.nonceIdx + 1, nonceLast := st.nonceStream st.nonceIdx })

/-- Modelled from the spec: the radio advances `messageSequence` modulo 16 on
each completed exchange (`radio.py` is not under `src/`). -/
def seqAdvance (st : TSt) : TSt :=
  { st with msgSeq := (st.msgSeq + 1) % 16 }

/-- The state effect of the bad-nonce branch (src 490-491): `Nonce.sync` is
recorded in the log, and `radio.messageSequence` is reset to the message's
sequence. -/
def nonceSyncSt (syncWord seq : Nat) (st : TSt) : TSt :=
  { st with syncLog := st.syncLog ++ [(syncWord, seq)], msgSeq := seq }

/-- The nonce-injection prologue of `_sendMessage` (src 457-462): draw a nonce
when `with_nonce`, forcing `stay_connected` when it is the `FAKE_NONCE`
sentinel. Returns the nonce set on the message, the effective stay-connected
flag, and the updated state. -/
def injectNonce (withNonce stayConnected : Bool) (st : TSt) : Option Nat × Bool × TSt :=
  if withNonce then
    let p := nonceAdvance st
    (some p.1, stayConnected || (p.1 == FAKE_NONCE), p.2)
  else (none, stayConnected, st)

/-- Outcome of the response-dispatch loop of `_sendMessage` (src 475-493). -/
inductive DispOut where
  | done
  | resend
  | failed (e : PdmExc)
  deriving Repr

/-- The response-dispatch loop of `_sendMessage` (src 475-493): `0x01` is
handled in its own `if` (not part of the `elif` chain), then `0x1d`/`0x02`
feed the pod shadow, and `0x06` with first body byte `0x14` is the bad-nonce
branch: with `retry > 3` it fails with `PdmError("Nonce re-negotiation
failed")`, otherwise it calls `Nonce.sync(u16_be(body[1:3]), msg.sequence)`,
resets `radio.messageSequence`, and requests a resend; the loop stops there
(the Python `return`). `seq` is the sequence of the sent message. -/
def dispatch (retry seq : Nat) : List (Nat × List Nat) → TSt → TSt × List Ev × DispOut
  | [], st => (st, [], .done)
  | (ctype, content) :: rest, st =>
    let vEvs : List Ev := if ctype == 0x01 then [.podVersion content] else []
    if ctype == 0x1d then
      let r := dispatch retry seq rest st
      (r.1, vEvs ++ Ev.podStatus content :: r.2.1, r.2.2)
    else if ctype == 0x02 then
      let r := dispatch retry seq rest st
      (r.1, vEvs ++ Ev.podInfo content :: r.2.1, r.2.2)
    else if ctype == 0x06 then
      match content with
      | [] => (st, vEvs, .failed (.pyError "IndexError"))
      | c0 :: crest =>
        if c0 == 0x14 then
          if 3 < retry then (st, vEvs, .failed (.pdmError "Nonce re-negotiation failed"))
          else
            match crest with
            | [a, b] =>
              (nonceSyncSt (a * 256 + b) seq st,
               vEvs ++ [Ev.nonceSync (a * 256 + b) seq, Ev.setMessageSequence seq], .resend)
            | _ => (st, vEvs, .failed (.pyError "struct.error"))
        else
          let r := dispatch retry seq rest st
          (r.1, vEvs ++ r.2.1, r.2.2)
    else
      let r := dispatch retry seq rest st
      (r.1, vEvs ++ r.2.1, r.2.2)

/-- Result of a transport run: the Python return-or-raise outcome, the final
`Pdm` mutable state (mutations survive a raise, as in Python), the event
trace, and the unconsumed part of the radio script. -/
structure SendOut where
  result : Except PdmExc Unit
  state : TSt
  trace : List Ev
  rest : List Xchg

/-- `Pdm._sendMessage` (src 455-493) driven by the radio script `env`.
`addr` is `self.pod.radio_address` (used by the interim-resync status message).
On `TransmissionOutOfSyncError` with `resync_allowed`, it runs the interim
resync (`_interim_resync`, src 495-502: sleep 15 s, status request 0x0E/00
with stay_connected and high_tx, sleep 5 s) and then resends once with
`resync_allowed=False`; a bad-nonce response triggers a resend via `dispatch`
with `with_nonce=True` and the retry count incremented, the remaining
parameters back at their defaults as in the source. `fuel` bounds the
recursion; every theorem below supplies more fuel than exchanges. -/
def sendMessage : Nat → List Xchg → Msg → Bool → Nat → Bool → Bool → Bool → Bool →
    Option Nat → TSt → SendOut
  | 0, env, _, _, _, _, _, _, _, _, st => ⟨.error .stuck, st, [], env⟩
  | _ + 1, [], _, wn, _, sc, _, _, _, _, st =>
    ⟨.error .stuck, (injectNonce wn sc st).2.2, [], []⟩
  | fuel + 1, .outOfSync :: envRest, msg, wn, retry, sc, ra, lt, ht, addr, st =>
    let p := injectNonce wn sc st
    let ev0 := Ev.radioExchange addr msg.sequence msg.commands p.1 p.2.1 lt ht
    if ra then
      let r1 := sendMessage fuel envRest (createMessage addr p.2.2.msgSeq 0x0e [0])
          false 0 true true false true addr p.2.2
      match r1.result with
      | .error e => ⟨.error e, r1.state, ev0 :: Ev.sleep 15 :: r1.trace, r1.rest⟩
      | .ok _ =>
        let r2 := sendMessage fuel r1.rest msg wn retry sc false lt ht addr r1.state
        ⟨r2.result, r2.state,
         (ev0 :: Ev.sleep 15 :: (r1.trace ++ [Ev.sleep 5])) ++ r2.trace, r2.rest⟩
    else ⟨.error .outOfSync, p.2.2, [ev0], envRest⟩
  | fuel + 1, .reply contents :: envRest, msg, wn, retry, sc, _, lt, ht, addr, st =>
    let p := injectNonce wn sc st
    let ev0 := Ev.radioExchange addr msg.sequence msg.commands p.1 p.2.1 lt ht
    let d := dispatch retry msg.sequence contents (seqAdvance p.2.2)
    match d.2.2 with
    | .done => ⟨.ok (), d.1, ev0 :: d.2.1, envRest⟩
    | .failed e => ⟨.error e, d.1, ev0 :: d.2.1, envRest⟩
    | .resend =>
      let r := sendMessage fuel envRest msg true (retry + 1) sc true false false addr d.1
      ⟨r.result, r.state, ev0 :: (d.2.1 ++ r.trace), r.rest⟩

/-- `Pdm._interim_resync` (src 495-502): sleep 15 s, send a 0x0E/00 status
request with `stay_connected=True, resync_allowed=True, high_tx=True`, sleep
5 s (the trailing sleep only when the send returns). -/
def interimResync (fuel : Nat) (env : List Xchg) (addr : Option Nat) (st : TSt) : SendOut :=
  let r := sendMessage fuel env (createMessage addr st.msgSeq 0x0e [0])
      false 0 true true false true addr st
  match r.result with
  | .error e => ⟨.error e, r.state, Ev.sleep 15 :: r.trace, r.rest⟩
  | .ok _ => ⟨.ok (), r.state, Ev.sleep 15 :: (r.trace ++ [Ev.sleep 5]), r.rest⟩

/-- The public command operations of `Pdm` (src 20-381). -/
inductive Op where
  | updatePodStatus
  | acknowledge_alerts
  | is_busy
  | bolus
  | cancelBolus
  | cancelTempBasal
  | setTempBasal
  | set_basal_schedule
  | deactivate_pod
  | activate_pod
  deriving DecidableEq, Repr

/-- The two actions that occur in `finally` clauses of the public operations. -/
inductive FinStep where
  | disconnect
  | savePod
  deriving DecidableEq, Repr

/-- The `finally` clause of each public operation, transcribed from the source:
`updatePodStatus` src 35-37, `acknowledge_alerts` src 51-53, `is_busy` src
65-66 (disconnect only, no `_savePod`), `bolus` src 107-109, `cancelBolus`
src 135-137, `cancelTempBasal` src 164-166, `setTempBasal` src 245-247,
`set_basal_schedule` src 274-276, `deactivate_pod` src 288-290,
`activate_pod` src 379-381. -/
def finallySteps : Op → List FinStep
  | .updatePodStatus => [.disconnect, .savePod]
  | .acknowledge_alerts => [.disconnect, .savePod]
  | .is_busy => [.disconnect]
  | .bolus => [.disconnect, .savePod]
  | .cancelBolus => [.disconnect, .savePod]
  | .cancelTempBasal => [.disconnect, .savePod]
  | .setTempBasal => [.disconnect, .savePod]
  | .set_basal_schedule => [.disconnect, .savePod]
  | .deactivate_pod => [.disconnect, .savePod]
  | .activate_pod => [.disconnect, .savePod]

/-- The pod shadow after the field assignments of `_savePod` (src 446-449):
`radio_message_sequence`, `radio_packet_sequence`, `nonce_last` and
`nonce_seed` copied back from the radio and nonce state. -/
def podAfterSave (pod : Pod) (st : TSt) : Pod :=
  { pod with
    radio_message_sequence := st.msgSeq
    radio_packet_sequence := st.packetSeq
    nonce_last := st.nonceLast
    nonce_seed := st.nonceSeed }

/-- `Pdm._savePod` (src 443-453): the four counters are written back to the pod
(these assignments happen before `Save` and survive its failure), then
`pod.Save()` runs; `Save` is the external persistence call, modelled by the
`saveOk` oracle; any failure is re-raised as
`PdmError("Pod status was not saved")`. -/
def savePodStep (pod : Pod) (st : TSt) (saveOk : Bool) : Pod × Except PdmExc Unit :=
  (podAfterSave pod st,
   if saveOk then .ok () else .error (.pdmError "Pod status was not saved"))

/-- The `except` clauses shared by every public operation (e.g. src 31-34):
an `OmnipyError` passes through, anything else is wrapped as
`PdmError("Unexpected error")`. The `stuck` model artefact also passes
through unchanged. -/
def wrapException : PdmExc → PdmExc
  | .pdmError s => .pdmError s
  | .outOfSync => .outOfSync
  | .busy => .busy
  | .pyError _ => .pdmError "Unexpected error"
  | .stuck => .stuck

/-- The body outcome after the `except` clauses. -/
def wrapResult : Except PdmExc Unit → Except PdmExc Unit
  | .ok a => .ok a
  | .error e => .error (wrapException e)

/-- Run a `finally` clause over the pending outcome, with Python semantics: an
exception raised inside `finally` (a failing `_savePod`) replaces the pending
outcome. The `Bool` component records whether `radio.disconnect()` ran. -/
def runFinally (st : TSt) (saveOk : Bool) :
    List FinStep → Except PdmExc Unit × Pod × Bool → Except PdmExc Unit × Pod × Bool
  | [], acc => acc
  | .disconnect :: rest, (r, pod, _) => runFinally st saveOk rest (r, pod, true)
  | .savePod :: rest, (r, pod, d) =>
    let s := savePodStep pod st saveOk
    runFinally st saveOk rest
      (match s.2 with | .ok _ => r | .error e => .error e, s.1, d)

/-- The try/except/finally skeleton shared by every public operation
(src 20-381): the body outcome `r` is filtered through the `except` clauses,
then the operation's `finally` clause runs. -/
def commandRun (op : Op) (r : Except PdmExc Unit) (pod : Pod) (st : TSt) (saveOk : Bool) :
    Except PdmExc Unit × Pod × Bool :=
  runFinally st saveOk (finallySteps op) (wrapResult r, pod, false)

/-- `Pdm.deactivate_pod` (src 278-282) up to the radio send: inside the lock it
builds the 0x1C message with body `00 00 00 00` and sends it with a nonce.
No precondition assertion is invoked on this path (contrast
`_assert_can_deactivate`, src 754-760, which is defined but never called). -/
def deactivate_pod_presend (pod : Pod) (msgSeq : Nat) : Except PdmExc Msg :=
  .ok (createMessage pod.radio_address msgSeq 0x1c [0, 0, 0, 0])

/-- A healthy running pod used as a concrete test fixture. -/
def podGood : Pod :=
  { radio_address := some 0x1f0e89f1
    id_lot := some 44147
    id_t := some 1234567
    state_progress := PodProgress.Running
    state_faulted := false
    var_maximum_bolus := none
    var_maximum_temp_basal_rate := none
    insulin_reservoir := 100
    var_utc_offset := some 0
    radio_message_sequence := 0
    radio_packet_sequence := 0
    nonce_last := 0
    nonce_seed := 0 }

/-- The fixture pod with no radio address assigned. -/
def podNoAddress : Pod := { podGood with radio_address := none }

/-- A concrete transport state fixture. -/
def st0 : TSt :=
  { nonceStream := fun i => 1000 + i
    nonceIdx := 0
    nonceLast := 0
    nonceSeed := 0
    syncLog := []
    msgSeq := 3
    packetSeq := 7 }

/-- A concrete message fixture (a cancel command at sequence 3). -/
def msg0 : Msg :=
  { address := some 0x1f0e89f1
    sequence := 3
    commands := [(0x1f, [0, 0, 0, 0, 4])]
    nonce := none }

/-- The all-slots-1.00-U/h basal schedule fixture. -/
def sched1 : List ℚ := List.replicate 48 1

/-- Stated from the claim's words (spec 4.1, temp basal outer body):
`u32(0) + 0x01 + u16(checksum) + u8(half_hours) + u16(0x3840) +
u16(pulse_list[0]) + ise_body`, checksum over `u8(half_hours) + u16(0x3840) +
u16(pulse_list[0]) + pulse_body`. -/
def specTempBasalOuterBody (halfHours : Nat) (rate : ℚ) : List Nat :=
  let pulseList := getPulsesForHalfHours (List.replicate halfHours (rate / 2))
  u32be 0 ++ [0x01] ++
    u16be (getChecksum ([halfHours] ++ u16be 0x3840 ++ u16be (pulseList.headD 0).toNat ++
      pulseWords pulseList)) ++
    [halfHours] ++ u16be 0x3840 ++ u16be (pulseList.headD 0).toNat ++
    getStringBodyFromTable (getInsulinScheduleTableFromPulses pulseList)

/-- Stated from the claim's words (spec 4.1, temp basal inner body): reminders
byte, `0x00`, then the first pulse-interval entry emitted once on its own and
again as the head of the full entry list, each entry
`u16(pulse_count) + u32(interval)`. -/
def specTempBasalInnerBody (halfHours : Nat) (rate : ℚ) (conf : Bool) : List Nat :=
  let entries := getPulseIntervalEntries (List.replicate halfHours (rate / 2))
  [if conf then 0x40 else 0x00, 0x00] ++
    u16be (entries.headD (0, 0)).1 ++ u32be (entries.headD (0, 0)).2 ++
    entries.flatMap fun e => u16be e.1 ++ u32be e.2

/-- Decidable equality for `Except` results, used to evaluate the model on
concrete inputs. -/
instance exceptDecEq {e a : Type} [DecidableEq e] [DecidableEq a] :
    DecidableEq (Except e a) := fun x y =>
  match x, y with
  | .ok u, .ok v => if h : u = v then .isTrue (by rw [h]) else .isFalse (by simp [h])
  | .error u, .error v => if h : u = v then .isTrue (by rw [h]) else .isFalse (by simp [h])
  | .ok _, .error _ => .isFalse (by simp)
  | .error _, .ok _ => .isFalse (by simp)

section RatReduction

attribute [local semireducible] Rat.mul Rat.add Rat.sub Rat.inv Rat.ofScientific

theorem tempBasalBodies_eq_spec (halfHours : Nat) (rate : ℚ) (conf : Bool) :
    tempBasalBodies halfHours rate conf =
      (specTempBasalOuterBody halfHours rate, specTempBasalInnerBody halfHours rate conf) := rfl

set_option maxHeartbeats 1000000 in
theorem setTempBasalGuards_ok_inv {pod : Pod} {busy : Bool} {rate hours : ℚ}
    (h : setTempBasalGuards pod busy rate hours = .ok ()) :
    1 ≤ ratTrunc (hours * 2) ∧ ratTrunc (hours * 2) ≤ 24 ∧ rate ≤ 30 ∧
    (∀ m, pod.var_maximum_temp_basal_rate = some m → rate ≤ m) ∧ busy = false := by
  simp only [setTempBasalGuards] at h
  split_ifs at h with h1 h2 h3 h4 h5 h6 h7 h8 h9 h10
  push_neg at h8
  refine ⟨by omega, by omega, by linarith, ?_, by simpa using h4⟩
  intro m hm
  simp only [exceedsCeiling, hm] at h9
  simpa using h9

theorem setTempBasal_ok_inv {pod : Pod} {busy tempActive : Bool} {rate hours : ℚ}
    {conf : Bool} {out : TempBasalOut}
    (h : setTempBasalPipeline pod busy tempActive rate hours conf = .ok out) :
    out = ⟨tempActive, (ratTrunc (hours * 2)).toNat,
            specTempBasalOuterBody (ratTrunc (hours * 2)).toNat rate,
            specTempBasalInnerBody (ratTrunc (hours * 2)).toNat rate conf⟩ ∧
    1 ≤ ratTrunc (hours * 2) ∧ ratTrunc (hours * 2) ≤ 24 ∧ rate ≤ 30 ∧
    (∀ m, pod.var_maximum_temp_basal_rate = some m → rate ≤ m) ∧ busy = false := by
  unfold setTempBasalPipeline at h
  rcases hg : setTempBasalGuards pod busy rate hours with e | u
  · rw [hg] at h; exact absurd h (by simp)
  · rw [hg] at h
    simp only [Except.ok.injEq] at h
    obtain ⟨g1, g2, g3, g4, g5⟩ := setTempBasalGuards_ok_inv hg
    exact ⟨by rw [← h, tempBasalBodies_eq_spec], g1, g2, g3, g4, g5⟩

theorem bolusPipeline_ok_inv {pod : Pod} {busy : Bool} {amount : ℚ} {n : ℤ}
    (h : bolusPipeline pod busy amount = .ok n) :
    n = ratTrunc (amount * 20) ∧ n ≠ 0 ∧ n * 16 ≤ 0x3840 ∧
    amount ≤ pod.insulin_reservoir ∧ busy = false := by
  unfold bolusPipeline at h
  by_cases h1 : pod.radio_address = none
  · rw [if_pos h1] at h; exact absurd h (by simp)
  rw [if_neg h1] at h
  by_cases h2 : pod.id_lot = none
  · rw [if_pos h2] at h; exact absurd h (by simp)
  rw [if_neg h2] at h
  by_cases h3 : pod.id_t = none
  · rw [if_pos h3] at h; exact absurd h (by simp)
  rw [if_neg h3] at h
  by_cases h4 : busy = true
  · rw [if_pos h4] at h; exact absurd h (by simp)
  rw [if_neg h4] at h
  by_cases h5 : pod.state_faulted = true
  · rw [if_pos h5] at h; exact absurd h (by simp)
  rw [if_neg h5] at h
  by_cases h6 : pod.state_progress < PodProgress.Running
  · rw [if_pos h6] at h; exact absurd h (by simp)
  rw [if_neg h6] at h
  by_cases h7 : PodProgress.RunningLow < pod.state_progress
  · rw [if_pos h7] at h; exact absurd h (by simp)
  rw [if_neg h7] at h
  by_cases h8 : exceedsCeiling pod.var_maximum_bolus amount = true
  · rw [if_pos h8] at h; exact absurd h (by simp)
  rw [if_neg h8] at h
  by_cases h9 : ratTrunc (amount * 20) = 0
  · rw [if_pos h9] at h; exact absurd h (by simp)
  rw [if_neg h9] at h
  by_cases h10 : (0x3840 : ℤ) < ratTrunc (amount * 20) * 16
  · rw [if_pos h10] at h; exact absurd h (by simp)
  rw [if_neg h10] at h
  rw [if_neg h4] at h
  by_cases h12 : pod.insulin_reservoir < amount
  · rw [if_pos h12] at h; exact absurd h (by simp)
  rw [if_neg h12] at h
  simp only [Except.ok.injEq] at h
  subst h
  exact ⟨rfl, h9, by omega, le_of_not_lt h12, by simpa using h4⟩

theorem ratTrunc_den_one {q : ℚ} (h : q.den = 1) :
    ratTrunc q = q.num ∧ round_half_even q = q.num ∧ (q.num : ℚ) = q := by
  have hq : (q.num : ℚ) = q := by
    conv_rhs => rw [← Rat.num_div_den q]
    rw [h]
    simp
  have hf : q.floor = q.num := by simp [Rat.floor, h]
  have hc : q.ceil = q.num := by simp [Rat.ceil, h]
  refine ⟨by simp [ratTrunc, hf, hc], ?_, hq⟩
  simp only [round_half_even, hf, hq, sub_self]
  norm_num

/-- Claim C5: for a 1.00 U immediate bolus with default parameters
(pulse_speed 16, delivery_delay 2, reminders 0), the bolus pipeline yields
pulse_count 20 (hence pulse_span 16 * 20 = 320), the outer 0x1A body is
`00 00 00 00 02 00 6A 01 01 40 00 14 00 14` with checksum 0x006A equal to the
16-bit sum of the seven bytes following it, and the inner 0x17 body is
`00 00 C8 00 03 0D 40 00 00 00 00 00 00`. -/
theorem C5_one_unit_bolus_encoding :
    bolusPipeline podGood false 1 = .ok 20 ∧
    16 * 20 = 320 ∧
    getChecksum [0x01, 0x01, 0x40, 0x00, 0x14, 0x00, 0x14] = 0x006A ∧
    [0x01, 0x01, 0x40, 0x00, 0x14, 0x00, 0x14].sum = 0x006A ∧
    immediateBolusMainBody 20 16 =
      [0x00, 0x00, 0x00, 0x00, 0x02, 0x00, 0x6A, 0x01, 0x01, 0x40, 0x00, 0x14, 0x00, 0x14] ∧
    immediateBolusSubBody 20 0 2 =
      [0x00, 0x00, 0xC8, 0x00, 0x03, 0x0D, 0x40, 0x00, 0x00, 0x00, 0x00, 0x00, 0x00] := by
  exact ⟨by decide, by decide, by decide, by decide, by decide, by decide⟩

/-- Claim C8, counterexample: the amount 0.08 U is accepted by the bolus guard
chain on a healthy pod (yielding pulse count 1, the Python `int()` truncation
of 1.6), yet `round_half_even(0.08 * 20) = 2` and 0.08 is not representable
in 0.05-unit steps (0.08 * 20 is not an integer), refuting both parts of the
claimed quantum law. -/
theorem C8_counterexample :
    bolusPipeline podGood false (8 / 100) = .ok 1 ∧
    round_half_even ((8 / 100 : ℚ) * 20) = 2 ∧
    ((8 / 100 : ℚ) * 20).den ≠ 1 := by
  exact ⟨by decide, by decide, by decide⟩

/-- Claim C8, amended: for every bolus amount `a` that the bolus guard chain
accepts, the encoded pulse count is the truncation toward zero of `a * 20`
(Python `int(a * Decimal(20))`); accepted amounts need not lie on the
0.05-unit grid, but whenever `a * 20` is an integer the pulse count agrees
with `a * 20` and with `round_half_even(a * 20)`. -/
theorem C8_bolus_quantum_amended (pod : Pod) (busy : Bool) (a : ℚ) (n : ℤ)
    (h : bolusPipeline pod busy a = .ok n) :
    n = ratTrunc (a * 20) ∧
    ((a * 20).den = 1 → (n : ℚ) = a * 20 ∧ n = round_half_even (a * 20)) := by
  obtain ⟨hn, -, -, -, -⟩ := bolusPipeline_ok_inv h
  refine ⟨hn, fun hden => ?_⟩
  obtain ⟨ht, hr, hcast⟩ := ratTrunc_den_one hden
  subst hn
  rw [ht, hr]
  exact ⟨hcast, rfl⟩

/-- Claim C8, witness: the amended statement applied to the accepted 0.50 U
bolus (10 pulses). -/
theorem C8_bolus_quantum_amended_witness :
    (10 : ℤ) = ratTrunc ((1 / 2 : ℚ) * 20) ∧
    (((1 / 2 : ℚ) * 20).den = 1 →
      ((10 : ℤ) : ℚ) = (1 / 2 : ℚ) * 20 ∧ (10 : ℤ) = round_half_even ((1 / 2 : ℚ) * 20)) :=
  C8_bolus_quantum_amended podGood false (1 / 2) 10 (by decide)

/-- Claim C7, counterexample: on the 1.00 U immediate bolus body (spec scenario
E1) the stored checksum at bytes 5..6 is 0x006A, but the byte sum of
`body[7 : 7+6+len(pulse_body)]` with the empty pulse body, i.e. of `body[7:13]`,
is 0x56: the source checksums seven bytes (src 389-394), not six, so the
claimed law fails as stated. -/
theorem C7_counterexample :
    u16beAt (immediateBolusMainBody 20 16) 5 = 0x6A ∧
    (((immediateBolusMainBody 20 16).drop 7).take 6).sum % 65536 = 0x56 ∧
    u16beAt (immediateBolusMainBody 20 16) 5 ≠
      (((immediateBolusMainBody 20 16).drop 7).take 6).sum % 65536 := by
  exact ⟨by decide, by decide, by decide⟩

/-- Claim C10: the basal-schedule validity guard accepts the all-1.00-U/h
schedule, yet at pod-local time 00:29:59 (one second before the half-hour
boundary, so seconds_until_half_hour = 1) the computed
`pulses_remaining_current = int(1 * 10 / 1800)` is 0, and the 0x13 inner-body
interval computation of `_set_basal_schedule` divides by zero. -/
theorem C10_basal_schedule_division_by_zero :
    assert_basal_schedule_is_valid (some sched1) (some 0) = .ok () ∧
    basalPulsesRemaining sched1 0 29 59 = 0 ∧
    setBasalScheduleBodies sched1 0 29 59 = .error (.pyError "ZeroDivisionError") := by
  exact ⟨by decide, by decide, by decide⟩

/-- Claim C2: `deactivate_pod` performs no precondition check before building
and sending the 0x1C message: its pre-send phase unconditionally produces the
deactivate message for every pod state, while `_assert_can_deactivate` (which
does implement the claimed checks, but is never invoked by the source) rejects
the fixture pod with no radio address. -/
theorem C2_deactivate_no_guard :
    (∀ (pod : Pod) (seq : Nat),
      deactivate_pod_presend pod seq = .ok (createMessage pod.radio_address seq 0x1c [0, 0, 0, 0])) ∧
    assert_can_deactivate podNoAddress = .error (.pdmError "Radio radio_address not set") ∧
    deactivate_pod_presend podNoAddress 0 = .ok (createMessage none 0 0x1c [0, 0, 0, 0]) ∧
    assert_can_deactivate { podGood with state_progress := PodProgress.Inactive } =
      .error (.pdmError "Pod already deactivated") ∧
    deactivate_pod_presend { podGood with state_progress := PodProgress.Inactive } 5 =
      .ok (createMessage podGood.radio_address 5 0x1c [0, 0, 0, 0]) := by
  exact ⟨fun pod seq => rfl, by decide, by decide, by decide, by decide⟩

/-- Claim C9, counterexample: for hours = 12.4 the claimed
`half_hours = hours * 2 = 24.8` lies outside [1, 24], so the claim requires a
`PdmError`; the source instead truncates (`int(hours * 2) = 24`, src 177) and
accepts the request. -/
theorem C9_counterexample :
    (setTempBasalPipeline podGood false false 1 (62 / 5) false).map TempBasalOut.halfHours =
      .ok 24 ∧
    ¬ ((62 / 5 : ℚ) * 2 ≤ 24) ∧
    (24 : ℚ) ≠ (62 / 5 : ℚ) * 2 := by
  exact ⟨by decide, by decide, by decide⟩

/-- Claim C9, amended: `setTempBasal` computes `half_hours = int(hours * 2)`
(truncation toward zero) and raises `PdmError` exactly when that truncated
value is outside [1, 24]; it raises `PdmError` when the rate exceeds the
configured `var_maximum_temp_basal_rate` ceiling and when it exceeds the
30 U/h capability; and when a temp basal is already active, `cancelTempBasal`
is invoked before the new one is programmed. -/
theorem C9_temp_basal_guards_amended (pod : Pod) (busy tempActive : Bool)
    (rate hours : ℚ) (conf : Bool) :
    (∀ out, setTempBasalPipeline pod busy tempActive rate hours conf = .ok out →
      out.cancelCalled = tempActive ∧
      (out.halfHours : ℤ) = ratTrunc (hours * 2) ∧
      1 ≤ ratTrunc (hours * 2) ∧ ratTrunc (hours * 2) ≤ 24 ∧
      rate ≤ 30 ∧
      (∀ m, pod.var_maximum_temp_basal_rate = some m → rate ≤ m)) ∧
    (pod.radio_address ≠ none → pod.id_lot ≠ none → pod.id_t ≠ none →
     busy = false → pod.state_faulted = false →
     ¬ pod.state_progress < PodProgress.Running →
     ¬ PodProgress.RunningLow < pod.state_progress →
      ((ratTrunc (hours * 2) < 1 ∨ 24 < ratTrunc (hours * 2)) →
        setTempBasalPipeline pod busy tempActive rate hours conf =
          .error (.pdmError "Requested duration is not valid")) ∧
      (1 ≤ ratTrunc (hours * 2) → ratTrunc (hours * 2) ≤ 24 →
       exceedsCeiling pod.var_maximum_temp_basal_rate rate = true →
        setTempBasalPipeline pod busy tempActive rate hours conf =
          .error (.pdmError "Requested rate exceeds maximum temp basal setting")) ∧
      (1 ≤ ratTrunc (hours * 2) → ratTrunc (hours * 2) ≤ 24 →
       exceedsCeiling pod.var_maximum_temp_basal_rate rate = false → 30 < rate →
        setTempBasalPipeline pod busy tempActive rate hours conf =
          .error (.pdmError "Requested rate exceeds maximum temp basal capability"))) := by
  constructor
  · intro out h
    obtain ⟨hout, g1, g2, g3, g4, -⟩ := setTempBasal_ok_inv h
    subst hout
    refine ⟨rfl, ?_, g1, g2, g3, g4⟩
    simp only [Int.toNat_of_nonneg (by omega : (0 : ℤ) ≤ ratTrunc (hours * 2))]
  · intro hA hL hT hB hF hP1 hP2
    subst hB
    refine ⟨fun hdur => ?_, fun hd1 hd2 hceil => ?_, fun hd1 hd2 hceil hcap => ?_⟩
    · have hc : 24 < ratTrunc (hours * 2) ∨ ratTrunc (hours * 2) < 1 := by omega
      simp [setTempBasalPipeline, setTempBasalGuards, hA, hL, hT, hF, hP1, hP2, hc]
    · have hc : ¬ (24 < ratTrunc (hours * 2) ∨ ratTrunc (hours * 2) < 1) := by omega
      simp [setTempBasalPipeline, setTempBasalGuards, hA, hL, hT, hF, hP1, hP2, hc, hceil]
    · have hc : ¬ (24 < ratTrunc (hours * 2) ∨ ratTrunc (hours * 2) < 1) := by omega
      simp [setTempBasalPipeline, setTempBasalGuards, hA, hL, hT, hF, hP1, hP2, hc, hceil, hcap]

/-- Claim C9, witness: the amended statement applied concretely: hours = 0
(truncated half_hours 0 is below 1) is rejected with the duration error on the
healthy fixture pod. -/
theorem C9_temp_basal_guards_amended_witness :
    setTempBasalPipeline podGood false false 1 0 false =
      .error (.pdmError "Requested duration is not valid") :=
  ((C9_temp_basal_guards_amended podGood false false 1 0 false).2 (by decide) (by decide)
    (by decide) rfl rfl (by decide) (by decide)).1 (by decide)

/-- Claim C6: every temp basal accepted by `setTempBasal` emits the outer 0x1A
body `u32(0) + 0x01 + u16(checksum) + u8(half_hours) + u16(0x3840) +
u16(pulse_list[0]) + ise_body` with the checksum computed over
`u8(half_hours) + u16(0x3840) + u16(pulse_list[0]) + pulse_body` (the packed
pulse list, not the emitted ISE table), and the inner 0x16 body emits the
first pulse-interval entry twice: once right after the two header bytes and
again as the head of the full entry list (`specTempBasalOuterBody` and
`specTempBasalInnerBody` are transcribed from the claim's words). -/
theorem C6_temp_basal_body_structure (pod : Pod) (busy tempActive : Bool)
    (rate hours : ℚ) (conf : Bool) (out : TempBasalOut)
    (h : setTempBasalPipeline pod busy tempActive rate hours conf = .ok out) :
    out.outerBody = specTempBasalOuterBody out.halfHours rate ∧
    out.innerBody = specTempBasalInnerBody out.halfHours rate conf := by
  obtain ⟨hout, -, -, -, -, -⟩ := setTempBasal_ok_inv h
  subst hout
  exact ⟨rfl, rfl⟩

/-- Claim C6, witness: the structure theorem applied to the accepted
1 U/h, 1 hour temp basal (2 half-hour slots). -/
theorem C6_temp_basal_body_structure_witness :
    (⟨true, 2, specTempBasalOuterBody 2 1, specTempBasalInnerBody 2 1 false⟩ :
        TempBasalOut).outerBody = specTempBasalOuterBody 2 1 ∧
    (⟨true, 2, specTempBasalOuterBody 2 1, specTempBasalInnerBody 2 1 false⟩ :
        TempBasalOut).innerBody = specTempBasalInnerBody 2 1 false :=
  C6_temp_basal_body_structure podGood false true 1 1 false _ (by decide)

/-- Claim C7, amended: the stored big-endian checksum at bytes 5..6 of every
generated outer 0x1A body equals the 16-bit sum of the checksummed region,
which is `body[7:14]` (seven bytes, pulse body empty) for an immediate bolus,
and the five header bytes `body[7:12]` plus the packed pulse list for the
temp basal and basal-schedule variants; for the latter two the pulse list
itself is not part of the emitted body (the body carries the ISE table), so
the sum is not a sum over a slice of the body. -/
theorem C7_checksum_law_amended :
    (∀ pc ps : Nat,
      ((immediateBolusMainBody pc ps).drop 7).length = 7 ∧
      u16beAt (immediateBolusMainBody pc ps) 5 =
        ((immediateBolusMainBody pc ps).drop 7).sum % 65536) ∧
    (∀ (pod : Pod) (busy tempActive : Bool) (rate hours : ℚ) (conf : Bool)
        (out : TempBasalOut),
      setTempBasalPipeline pod busy tempActive rate hours conf = .ok out →
      u16beAt out.outerBody 5 =
        (((out.outerBody.drop 7).take 5).sum +
          (pulseWords (getPulsesForHalfHours
            (List.replicate out.halfHours (rate / 2)))).sum) % 65536) ∧
    (∀ (schedule : List ℚ) (hour minute second : Nat) (bodies : List Nat × List Nat),
      setBasalScheduleBodies schedule hour minute second = .ok bodies →
      u16beAt bodies.1 5 =
        (((bodies.1.drop 7).take 5).sum +
          (pulseWords (getPulsesForHalfHours (schedule.map fun e => e / 2))).sum) % 65536) := by
  refine ⟨fun pc ps => ⟨?_, ?_⟩, fun pod busy ta rate hours conf out h => ?_,
    fun schedule hour minute second bodies h => ?_⟩
  · simp [immediateBolusMainBody, u32be, u16be]
  · simp [immediateBolusMainBody, u32be, u16be, getChecksum, u16beAt, List.getD]
    omega
  · obtain ⟨hout, -, -, -, -, -⟩ := setTempBasal_ok_inv h
    subst hout
    simp [specTempBasalOuterBody, u32be, u16be, getChecksum, u16beAt, List.getD]
    omega
  · unfold setBasalScheduleBodies at h
    by_cases hpr : basalPulsesRemaining schedule hour minute second = 0
    · rw [if_pos hpr] at h
      exact absurd h (by simp)
    · rw [if_neg hpr] at h
      simp only [Except.ok.injEq] at h
      subst h
      simp [u32be, u16be, getChecksum, u16beAt, List.getD]
      omega

/-- Claim C7, witness: the temp-basal part of the amended checksum law applied
to the accepted 1 U/h, 1 hour temp basal. -/
theorem C7_checksum_law_amended_witness :
    u16beAt (specTempBasalOuterBody 2 1) 5 =
      ((((specTempBasalOuterBody 2 1).drop 7).take 5).sum +
        (pulseWords (getPulsesForHalfHours (List.replicate 2 ((1 : ℚ) / 2)))).sum) % 65536 :=
  C7_checksum_law_amended.2.1 podGood false true 1 1 false
    ⟨true, 2, specTempBasalOuterBody 2 1, specTempBasalInnerBody 2 1 false⟩ (by decide)

/-- Claim C1, counterexample: `is_busy` is among the operations the claim
covers, but its `finally` clause (src 65-66) only disconnects the radio and
never runs `_savePod`: with failing persistence no
`PdmError("Pod status was not saved")` arises and the pod shadow is left
untouched (the counters of `st0` are not copied back). -/
theorem C1_counterexample :
    finallySteps Op.is_busy ≠ [FinStep.disconnect, FinStep.savePod] ∧
    (commandRun Op.is_busy (.ok ()) podGood st0 false).1 = .ok () ∧
    (commandRun Op.is_busy (.ok ()) podGood st0 false).2.1 = podGood ∧
    podGood.radio_message_sequence ≠ st0.msgSeq := by
  exact ⟨by decide, by decide, by decide, by decide⟩

/-- Claim C1, amended: for every public command operation except `is_busy`
(updatePodStatus, acknowledge_alerts, bolus, cancelBolus, cancelTempBasal,
setTempBasal, set_basal_schedule, deactivate_pod, activate_pod) and every
exit path, the `finally` clause first disconnects the radio and then persists
via `_savePod`, which writes radio_message_sequence, radio_packet_sequence,
nonce_last and nonce_seed back to the pod and calls `Save`; a persistence
failure replaces the outcome with `PdmError("Pod status was not saved")`.
`is_busy`'s `finally` clause only disconnects. -/
theorem C1_finally_persistence_amended (op : Op) (pod : Pod) (st : TSt)
    (r : Except PdmExc Unit) (h : op ≠ Op.is_busy) :
    finallySteps op = [FinStep.disconnect, FinStep.savePod] ∧
    commandRun op r pod st true = (wrapResult r, podAfterSave pod st, true) ∧
    commandRun op r pod st false =
      (.error (.pdmError "Pod status was not saved"), podAfterSave pod st, true) ∧
    finallySteps Op.is_busy = [FinStep.disconnect] ∧
    commandRun Op.is_busy r pod st false = (wrapResult r, pod, true) := by
  have hsteps : finallySteps op = [FinStep.disconnect, FinStep.savePod] := by
    cases op <;> simp_all [finallySteps]
  refine ⟨hsteps, ?_, ?_, rfl, ?_⟩
  · simp [commandRun, hsteps, runFinally, savePodStep]
  · simp [commandRun, hsteps, runFinally, savePodStep]
  · simp [commandRun, finallySteps, runFinally]

/-- Claim C1, witness: the amended statement applied to `bolus` with a
successful body on the fixture pod and transport state. -/
theorem C1_finally_persistence_amended_witness :
    finallySteps Op.bolus = [FinStep.disconnect, FinStep.savePod] ∧
    commandRun Op.bolus (.ok ()) podGood st0 true =
      (wrapResult (.ok ()), podAfterSave podGood st0, true) ∧
    commandRun Op.bolus (.ok ()) podGood st0 false =
      (.error (.pdmError "Pod status was not saved"), podAfterSave podGood st0, true) ∧
    finallySteps Op.is_busy = [FinStep.disconnect] ∧
    commandRun Op.is_busy (.ok ()) podGood st0 false = (wrapResult (.ok ()), podGood, true) :=
  C1_finally_persistence_amended Op.bolus podGood st0 (.ok ()) (by decide)

/-- Claim C3: when a response carries an error command (ctype 0x06) whose first
body byte is 0x14, `_sendMessage` with retry count at most 3 extracts the
big-endian sync word from body bytes 1..2, calls `Nonce.sync(sync_word,
message.sequence)`, resets `radio.messageSequence` to `message.sequence`, and
resends the same message with `with_nonce=True` and the retry count
incremented (drawing a fresh nonce on re-entry); with retry count above 3 it
raises `PdmError("Nonce re-negotiation failed")` instead. Concretely, five
consecutive bad-nonce replies produce the failure after exactly four sync
calls, while four bad-nonce replies followed by a clean reply succeed. -/
theorem C3_bad_nonce_renegotiation :
    (∀ (fuel : Nat) (env : List Xchg) (msg : Msg) (retry : Nat) (sc ra lt ht : Bool)
        (addr : Option Nat) (st : TSt) (c : List Nat), 3 < retry →
      (sendMessage (fuel + 1) (Xchg.reply [(6, 0x14 :: c)] :: env) msg true retry sc ra lt ht
        addr st).result = .error (.pdmError "Nonce re-negotiation failed")) ∧
    (∀ (fuel : Nat) (env : List Xchg) (msg : Msg) (retry : Nat) (sc ra lt ht : Bool)
        (addr : Option Nat) (st : TSt) (a b : Nat), retry ≤ 3 →
      sendMessage (fuel + 1) (Xchg.reply [(6, [0x14, a, b])] :: env) msg true retry sc ra lt ht
          addr st =
        (let p := injectNonce true sc st
         let st3 := nonceSyncSt (a * 256 + b) msg.sequence (seqAdvance p.2.2)
         let r := sendMessage fuel env msg true (retry + 1) sc true false false addr st3
         ⟨r.result, r.state,
          Ev.radioExchange addr msg.sequence msg.commands p.1 p.2.1 lt ht ::
            Ev.nonceSync (a * 256 + b) msg.sequence ::
            Ev.setMessageSequence msg.sequence :: r.trace, r.rest⟩)) ∧
    (sendMessage 9 (List.replicate 5 (Xchg.reply [(6, [0x14, 0xAB, 0xCD])])) msg0 true 0 false
        true false false (some 1) st0).result = .error (.pdmError "Nonce re-negotiation failed") ∧
    (sendMessage 9 (List.replicate 5 (Xchg.reply [(6, [0x14, 0xAB, 0xCD])])) msg0 true 0 false
        true false false (some 1) st0).state.syncLog =
      [(0xABCD, 3), (0xABCD, 3), (0xABCD, 3), (0xABCD, 3)] ∧
    (sendMessage 9 (List.replicate 4 (Xchg.reply [(6, [0x14, 0xAB, 0xCD])]) ++ [Xchg.reply []])
        msg0 true 0 false true false false (some 1) st0).result = .ok () := by
  refine ⟨fun fuel env msg retry sc ra lt ht addr st c h => ?_,
    fun fuel env msg retry sc ra lt ht addr st a b h => ?_, by decide, by decide, by decide⟩
  · simp [sendMessage, dispatch, h]
  · have h' : ¬ (3 < retry) := not_lt.mpr h
    simp [sendMessage, dispatch, h']

/-- Claim C3, witness: the bad-nonce branch applied concretely: a fifth
consecutive bad-nonce reply (retry count 4) raises the renegotiation failure,
and a first bad-nonce reply (retry count 0) is resent after the sync call. -/
theorem C3_bad_nonce_renegotiation_witness :
    (sendMessage 1 [Xchg.reply [(6, [0x14, 0, 7])]] msg0 true 4 false true false false (some 1)
      st0).result = .error (.pdmError "Nonce re-negotiation failed") ∧
    sendMessage 1 [Xchg.reply [(6, [0x14, 0xAB, 0xCD])]] msg0 true 0 false true false false
        (some 1) st0 =
      (let p := injectNonce true false st0
       let st3 := nonceSyncSt (0xAB * 256 + 0xCD) msg0.sequence (seqAdvance p.2.2)
       let r := sendMessage 0 [] msg0 true (0 + 1) false true false false (some 1) st3
       ⟨r.result, r.state,
        Ev.radioExchange (some 1) msg0.sequence msg0.commands p.1 p.2.1 false false ::
          Ev.nonceSync (0xAB * 256 + 0xCD) msg0.sequence ::
          Ev.setMessageSequence msg0.sequence :: r.trace, r.rest⟩) :=
  ⟨C3_bad_nonce_renegotiation.1 0 [] msg0 4 false true false false (some 1) st0 [0, 7]
      (by decide),
    C3_bad_nonce_renegotiation.2.1 0 [] msg0 0 false true false false (some 1) st0 0xAB 0xCD
      (by decide)⟩

/-- Claim C4: on `TransmissionOutOfSyncError` with resync allowed,
`_sendMessage` performs exactly one interim resync (sleep 15 s, a 0x0E/00
status request with stay_connected=True and high_tx=True, sleep 5 s) and then
resends the original message with `resync_allowed=False`; with resync not
allowed the error propagates immediately. Concretely, a recovered exchange
shows the sleep/status/sleep trace followed by the resend, and a second
out-of-sync on the same logical exchange propagates to the caller. -/
theorem C4_out_of_sync_interim_resync :
    (∀ (fuel : Nat) (env : List Xchg) (msg : Msg) (wn : Bool) (retry : Nat)
        (sc lt ht : Bool) (addr : Option Nat) (st : TSt),
      sendMessage (fuel + 1) (Xchg.outOfSync :: env) msg wn retry sc true lt ht addr st =
        (let p := injectNonce wn sc st
         let ir := interimResync fuel env addr p.2.2
         match ir.result with
         | .error e =>
           ⟨.error e, ir.state,
            Ev.radioExchange addr msg.sequence msg.commands p.1 p.2.1 lt ht :: ir.trace,
            ir.rest⟩
         | .ok _ =>
           let r2 := sendMessage fuel ir.rest msg wn retry sc false lt ht addr ir.state
           ⟨r2.result, r2.state,
            (Ev.radioExchange addr msg.sequence msg.commands p.1 p.2.1 lt ht :: ir.trace) ++
              r2.trace, r2.rest⟩)) ∧
    (∀ (fuel : Nat) (env : List Xchg) (msg : Msg) (wn : Bool) (retry : Nat)
        (sc lt ht : Bool) (addr : Option Nat) (st : TSt),
      sendMessage (fuel + 1) (Xchg.outOfSync :: env) msg wn retry sc false lt ht addr st =
        ⟨.error .outOfSync, (injectNonce wn sc st).2.2,
         [Ev.radioExchange addr msg.sequence msg.commands (injectNonce wn sc st).1
            (injectNonce wn sc st).2.1 lt ht], env⟩) ∧
    (sendMessage 9 [Xchg.outOfSync, Xchg.reply [], Xchg.reply []] msg0 false 0 false true false
        false (some 1) st0).result = .ok () ∧
    (sendMessage 9 [Xchg.outOfSync, Xchg.reply [], Xchg.reply []] msg0 false 0 false true false
        false (some 1) st0).trace =
      [Ev.radioExchange (some 1) 3 [(0x1f, [0, 0, 0, 0, 4])] none false false false,
       Ev.sleep 15,
       Ev.radioExchange (some 1) 3 [(0x0e, [0])] none true false true,
       Ev.sleep 5,
       Ev.radioExchange (some 1) 3 [(0x1f, [0, 0, 0, 0, 4])] none false false false] ∧
    (sendMessage 9 [Xchg.outOfSync, Xchg.reply [], Xchg.outOfSync] msg0 false 0 false true
        false false (some 1) st0).result = .error .outOfSync := by
  refine ⟨fun fuel env msg wn retry sc lt ht addr st => ?_,
    fun fuel env msg wn retry sc lt ht addr st => ?_, by decide, by decide, by decide⟩
  · simp only [sendMessage, interimResync]
    rcases hres : (sendMessage fuel env
        (createMessage addr (injectNonce wn sc st).2.2.msgSeq 0x0e [0]) false 0 true true false
        true addr (injectNonce wn sc st).2.2).result with e | u
    · simp [hres]
    · simp [hres]
  · simp [sendMessage]

end RatReduction
